import Mathlib

/-!
Verification development for the CV Parser API (src/app.py).

The service is a FastAPI app with two routes, `POST /parse-cv` and
`GET /health`.  The shallow embedding below translates the three Python
functions `extract_text_from_pdf`, `parse_cv_with_llm` and `parse_cv`,
together with the pieces of their environment the claims depend on:

* the PDF-reading library (PyPDF2) and the completion service (Cerebras)
  are external collaborators and appear as function parameters
  (`readPdf`, `llm`);
* `json.loads` from the Python standard library is modelled by the
  executable decoder `jsonLoads` below, faithful on the JSON subset used
  by every concrete input in this file (null, booleans, integers,
  escape-free strings, arrays, objects, arbitrary whitespace, and the
  whole-input requirement with distinct error classes);
* the temporary file created by `tempfile.NamedTemporaryFile(delete=False)`
  is tracked in an explicit `FileSystem` state (a fresh-name counter plus
  the list of paths currently existing);
* Python exceptions are values of `PyError`; FastAPI / Starlette
  `HTTPException(status_code, detail)` is the record `HTTPException`, and
  `str(e)` on it renders as "{status_code}: {detail}" (`errStr`).
-/

namespace CvParserApi

/-- JSON values, as produced by decoding an LLM completion.  Python's
decoded values (dict / list / str / int / bool / None) map onto the
constructors below. -/
inductive Json where
  | null : Json
  | bool (b : Bool) : Json
  | num (n : Int) : Json
  | str (s : String) : Json
  | arr (items : List Json) : Json
  | obj (fields : List (String × Json)) : Json

/-- True exactly when the decoded value is a JSON object (a Python dict). -/
def Json.isObj : Json → Bool
  | Json.obj _ => true
  | _ => false

/-- The opening-brace character, written by code point to keep brace
characters out of the source text. -/
def lbrace : Char := Char.ofNat 123

/-- The closing-brace character. -/
def rbrace : Char := Char.ofNat 125

/-- Drop leading JSON whitespace, as `json.loads` does between tokens. -/
def skipWs : List Char → List Char
  | [] => []
  | c :: rest =>
      if c = ' ' || c = '\n' || c = '\t' || c = '\r' then skipWs rest
      else c :: rest

/-- Split a leading run of decimal digits from the rest. -/
def takeDigits : List Char → (List Char × List Char)
  | [] => ([], [])
  | c :: rest =>
      if c.isDigit then
        let p := takeDigits rest
        (c :: p.1, p.2)
      else ([], c :: rest)

/-- Value of a digit string. -/
def digitsToNat (ds : List Char) : Nat :=
  ds.foldl (fun a c => a * 10 + (c.toNat - 48)) 0

/-- Read the body of a JSON string up to the closing quote.  Escape
sequences are outside the modelled subset (no input in this file contains
one), so a backslash makes the decode fail rather than diverge from
Python silently. -/
def parseStrAux : List Char → Option (List Char × List Char)
  | [] => none
  | c :: rest =>
      if c = '"' then some ([], rest)
      else if c = '\\' then none
      else
        match parseStrAux rest with
        | some (cs, r) => some (c :: cs, r)
        | none => none

mutual

/-- Decode one JSON value from the (whitespace-stripped) input, returning
it with the unconsumed remainder.  Fuel bounds the recursion depth; the
top-level entry point supplies more fuel than any input can use. -/
def parseVal : Nat → List Char → Option (Json × List Char)
  | 0, _ => none
  | Nat.succ fuel, s =>
      if List.isPrefixOf ("null".data) s then some (Json.null, s.drop 4)
      else if List.isPrefixOf ("true".data) s then some (Json.bool true, s.drop 4)
      else if List.isPrefixOf ("false".data) s then some (Json.bool false, s.drop 5)
      else
        match s with
        | [] => none
        | c :: rest =>
            if c = '"' then
              match parseStrAux rest with
              | some (cs, r) => some (Json.str (String.mk cs), r)
              | none => none
            else if c = '-' then
              match rest with
              | d :: _ =>
                  if d.isDigit then
                    let p := takeDigits rest
                    some (Json.num (-(Int.ofNat (digitsToNat p.1))), p.2)
                  else none
              | [] => none
            else if c.isDigit then
              let p := takeDigits (c :: rest)
              some (Json.num (Int.ofNat (digitsToNat p.1)), p.2)
            else if c = lbrace then
              match skipWs rest with
              | d :: r2 =>
                  if d = rbrace then some (Json.obj [], r2)
                  else
                    match parsePairs fuel (d :: r2) with
                    | some (ps, r) => some (Json.obj ps, r)
                    | none => none
              | [] => none
            else if c = '[' then
              match skipWs rest with
              | d :: r2 =>
                  if d = ']' then some (Json.arr [], r2)
                  else
                    match parseElems fuel (d :: r2) with
                    | some (vs, r) => some (Json.arr vs, r)
                    | none => none
              | [] => none
            else none

/-- Decode the members of a non-empty JSON object, positioned at the
first key; consumes the closing brace. -/
def parsePairs : Nat → List Char → Option (List (String × Json) × List Char)
  | 0, _ => none
  | Nat.succ fuel, s =>
      match s with
      | '"' :: rest =>
          match parseStrAux rest with
          | none => none
          | some (key, afterKey) =>
              match skipWs afterKey with
              | ':' :: afterColon =>
                  match parseVal fuel (skipWs afterColon) with
                  | none => none
                  | some (v, afterVal) =>
                      match skipWs afterVal with
                      | ',' :: afterComma =>
                          match parsePairs fuel (skipWs afterComma) with
                          | some (ps, r) => some ((String.mk key, v) :: ps, r)
                          | none => none
                      | d :: r =>
                          if d = rbrace then some ([(String.mk key, v)], r)
                          else none
                      | [] => none
              | _ => none
      | _ => none

/-- Decode the elements of a non-empty JSON array, positioned at the
first element; consumes the closing bracket. -/
def parseElems : Nat → List Char → Option (List Json × List Char)
  | 0, _ => none
  | Nat.succ fuel, s =>
      match parseVal fuel s with
      | none => none
      | some (v, afterVal) =>
          match skipWs afterVal with
          | ',' :: afterComma =>
              match parseElems fuel (skipWs afterComma) with
              | some (vs, r) => some (v :: vs, r)
              | none => none
          | ']' :: r => some ([v], r)
          | _ => none

end

/-- Model of Python's `json.loads`: decode the whole input as one JSON
value; leading and trailing whitespace is allowed, anything else after
the value is the "Extra data" failure, and no value at all is the
"Expecting value" failure (the two `JSONDecodeError` classes relevant
here). -/
def jsonLoads (s : String) : Except String Json :=
  match parseVal (s.length + 2) (skipWs s.data) with
  | some (v, rest) =>
      if (skipWs rest).isEmpty then Except.ok v
      else Except.error ("Extra data")
  | none => Except.error ("Expecting value")

/-- Index of the first occurrence of `pat` as a contiguous sublist. -/
def findSubIdx (pat : List Char) : List Char → Option Nat
  | [] => if List.isPrefixOf pat [] then some 0 else none
  | c :: rest =>
      if List.isPrefixOf pat (c :: rest) then some 0
      else (findSubIdx pat rest).map (· + 1)

/-- Core of `re.search(tagOpen + "(.*?)" + "\n" + three backticks, s,
re.DOTALL)`: scan start positions left to right; where `tagOpen` matches,
take the shortest body ending at the next close delimiter; if no close
delimiter follows, keep scanning (regex backtracking over start
positions). -/
def findFenceAux (tagOpen : List Char) : List Char → Option (List Char)
  | [] => none
  | c :: rest =>
      if List.isPrefixOf tagOpen (c :: rest) then
        let after := (c :: rest).drop tagOpen.length
        match findSubIdx ("\n```".data) after with
        | some j => some (after.take j)
        | none => findFenceAux tagOpen rest
      else findFenceAux tagOpen rest

/-- Opening delimiter of a fenced block labeled json, as in the first
recovery regex of `parse_cv_with_llm`. -/
def fenceJsonOpen : List Char := "```json\n".data

/-- Opening delimiter of an unlabeled fenced block, as in the second
recovery regex. -/
def fenceOpen : List Char := "```\n".data

/-- String-level wrapper for the fenced-block search. -/
def findFence (tagOpen : List Char) (s : String) : Option String :=
  (findFenceAux tagOpen s.data).map String.mk

/-- Index of the first occurrence of character `c`. -/
def firstIdxOf (c : Char) : List Char → Option Nat
  | [] => none
  | d :: rest =>
      if d = c then some 0
      else (firstIdxOf c rest).map (· + 1)

/-- Index of the last occurrence of character `c`. -/
def lastIdxOf (c : Char) (s : List Char) : Option Nat :=
  (firstIdxOf c s.reverse).map (fun i => s.length - 1 - i)

/-- Model of the third recovery regex (an opening brace, then anything,
then a closing brace, DOTALL, greedy): the match, when it exists, runs
from the first opening brace to the last closing brace, and exists
exactly when some closing brace lies strictly after the first opening
brace. -/
def braceSpan (s : List Char) : Option (List Char) :=
  match firstIdxOf lbrace s, lastIdxOf rbrace s with
  | some i, some j => if i < j then some ((s.take (j + 1)).drop i) else none
  | _, _ => none

/-- Starlette `HTTPException`: a status code and a detail message. -/
structure HTTPException where
  status_code : Nat
  detail : String

/-- A raised Python exception: either an `HTTPException` from this app,
or any other exception carrying its message (library faults,
`JSONDecodeError`, SDK errors). -/
inductive PyError where
  | http (e : HTTPException)
  | other (msg : String)

/-- Python `str(e)` on the modelled exceptions: Starlette renders an
`HTTPException` as "{status_code}: {detail}"; other exceptions render as
their message. -/
def errStr : PyError → String
  | PyError.http e => toString e.status_code ++ ": " ++ e.detail
  | PyError.other m => m

/-- Status code carried by an error (0 for a non-HTTP exception). -/
def PyError.statusOf : PyError → Nat
  | PyError.http e => e.status_code
  | PyError.other _ => 0

/-- Filesystem state seen by one request: a fresh-name counter for
`tempfile.NamedTemporaryFile` and the list of paths currently existing.
Paths are numbered by the counter, so a fresh temp name never collides
with an existing file. -/
structure FileSystem where
  nextTmp : Nat
  files : List Nat

/-- `os.unlink`: remove a path from the filesystem. -/
def unlink (p : Nat) (fs : FileSystem) : FileSystem :=
  ⟨fs.nextTmp, fs.files.filter (fun q => q != p)⟩

/-- Translation of `extract_text_from_pdf` (src/app.py lines 65-92).
Inside the `try`: `tempfile.NamedTemporaryFile(delete=False)` creates a
uniquely named file and the bytes are written to it; the file is opened
and handed to `PyPDF2.PdfReader`, and the per-page texts are accumulated
with `text += page.extract_text()` over pages 0..N-1.  On success
`os.unlink` removes the temporary file and the text is returned.  The
`except` clause turns any exception from the reading step into
`HTTPException(500, "Error extracting text from PDF: " + str(e))` — and
executes no unlink.  `readPdf` stands for the whole PyPDF2 step: on a
readable PDF it yields the list of per-page extracted texts, otherwise
it raises with a message. -/
def extract_text_from_pdf (readPdf : List Nat → Except String (List String))
    (file_content : List Nat) (fs : FileSystem) :
    Except PyError String × FileSystem :=
  let temp_file_path := fs.nextTmp
  let fs1 : FileSystem := ⟨fs.nextTmp + 1, fs.nextTmp :: fs.files⟩
  match readPdf file_content with
  | Except.ok pages =>
      (Except.ok (pages.foldl (fun text page => text ++ page) ""),
        unlink temp_file_path fs1)
  | Except.error msg =>
      (Except.error (PyError.http ⟨500, "Error extracting text from PDF: " ++ msg⟩),
        fs1)

/-- The hardcoded demo CV structure returned by `parse_cv_with_llm` when
no API key is configured (src/app.py lines 100-135), field for field. -/
def demoCV : Json :=
  Json.obj [
    ("name", Json.str "John Doe"),
    ("summary", Json.str "Experienced software engineer with 5+ years in web development"),
    ("contact", Json.obj [
      ("email", Json.str "john.doe@example.com"),
      ("phone", Json.str "+1234567890"),
      ("linkedin", Json.str "linkedin.com/in/johndoe"),
      ("github", Json.str "github.com/johndoe"),
      ("website", Json.str "johndoe.com")]),
    ("education", Json.arr [
      Json.obj [
        ("institution", Json.str "University of Example"),
        ("degree", Json.str "Bachelor of Science"),
        ("field_of_study", Json.str "Computer Science"),
        ("start_date", Json.str "2015"),
        ("end_date", Json.str "2019")]]),
    ("experience", Json.arr [
      Json.obj [
        ("company", Json.str "Tech Company Inc."),
        ("position", Json.str "Senior Software Engineer"),
        ("start_date", Json.str "2020"),
        ("end_date", Json.str "Present"),
        ("description", Json.str "Developed and maintained web applications using React and Node.js")]]),
    ("skills", Json.arr [
      Json.obj [("name", Json.str "JavaScript"), ("level", Json.str "Expert")],
      Json.obj [("name", Json.str "Python"), ("level", Json.str "Intermediate")],
      Json.obj [("name", Json.str "React"), ("level", Json.str "Advanced")]]),
    ("languages", Json.arr [
      Json.str "English (Native)",
      Json.str "Spanish (Intermediate)"]),
    ("certifications", Json.arr [
      Json.str "AWS Certified Developer",
      Json.str "Scrum Master"])]

/-- The eight-space indentation carried by every line of the prompt
f-string literal. -/
def promptIndent : String := "        "

/-- The single-turn user prompt built by `parse_cv_with_llm`
(src/app.py lines 141-168), with `cv_text` spliced where the f-string
places it. -/
def buildPrompt (cv_text : String) : String :=
  "\n" ++
  promptIndent ++ "You are an expert CV parser. Extract ALL important information from the following CV text.\n" ++
  promptIndent ++ "Analyze the CV thoroughly and identify ALL relevant sections and details.\n" ++
  "\n" ++
  promptIndent ++ "Return a RFC8259 compliant JSON object that captures the complete structure of the CV.\n" ++
  promptIndent ++ "Do not limit yourself to predefined sections - extract whatever sections and information are present in the CV.\n" ++
  "\n" ++
  promptIndent ++ "Common sections might include (but are not limited to):\n" ++
  promptIndent ++ "- Personal information (name, contact details)\n" ++
  promptIndent ++ "- Summary or objective\n" ++
  promptIndent ++ "- Work experience\n" ++
  promptIndent ++ "- Education\n" ++
  promptIndent ++ "- Skills or competencies\n" ++
  promptIndent ++ "- Projects\n" ++
  promptIndent ++ "- Publications\n" ++
  promptIndent ++ "- Certifications\n" ++
  promptIndent ++ "- Languages\n" ++
  promptIndent ++ "- Volunteer work\n" ++
  promptIndent ++ "- Awards and honors\n" ++
  promptIndent ++ "- References\n" ++
  promptIndent ++ "- Additional sections specific to this CV\n" ++
  "\n" ++
  promptIndent ++ "For each section, capture all relevant details in a structured format.\n" ++
  promptIndent ++ "Ensure your response is ONLY valid JSON with no additional text or explanation.\n" ++
  "\n" ++
  promptIndent ++ "CV Text:\n" ++
  promptIndent ++ cv_text ++ "\n" ++
  promptIndent

/-- The system instruction sent with every completion request
(src/app.py line 174). -/
def systemMessage : String :=
  "You are an expert CV parser that outputs only valid JSON."

/-- Truthiness of `os.environ.get("CEREBRAS_API_KEY")`: an absent
variable yields None (falsy) and an empty string is also falsy, so the
demo branch runs in both cases. -/
def apiKeyIsSet : Option String → Bool
  | none => false
  | some s => !s.isEmpty

/-- The JSON-recovery chain of `parse_cv_with_llm` (src/app.py lines
183-204), applied to a string completion: first `json.loads` on the
whole content; on failure, search for a json-labeled fenced block, then
an unlabeled fenced block, then a brace-to-brace span, and decode the
first pattern that matches — a decode failure there propagates as a
`JSONDecodeError` rather than moving to the next pattern; when no
pattern matches, `HTTPException(500, "Failed to parse LLM response as
JSON")` is raised. -/
def recoverJson (content : String) : Except PyError Json :=
  match jsonLoads content with
  | Except.ok v => Except.ok v
  | Except.error _ =>
      match findFence fenceJsonOpen content with
      | some inner =>
          match jsonLoads inner with
          | Except.ok v => Except.ok v
          | Except.error m => Except.error (PyError.other m)
      | none =>
          match findFence fenceOpen content with
          | some inner =>
              match jsonLoads inner with
              | Except.ok v => Except.ok v
              | Except.error m => Except.error (PyError.other m)
          | none =>
              match braceSpan content.data with
              | some sub =>
                  match jsonLoads (String.mk sub) with
                  | Except.ok v => Except.ok v
                  | Except.error m => Except.error (PyError.other m)
              | none =>
                  Except.error (PyError.http
                    ⟨500, "Failed to parse LLM response as JSON"⟩)

/-- Translation of `parse_cv_with_llm` (src/app.py lines 94-210).
Inside the `try`: when the API key is not set the hardcoded demo
structure is returned at once; otherwise the prompt is built and sent to
the completion service (`llm system user`, standing for
`client.chat.completions.create` with model "llama3.1-8b"), and the
string content of the completion goes through the recovery chain.  The
`except` clause converts every exception `e` escaping the `try` — an SDK
fault, a `JSONDecodeError` from the chain, or the chain's own
`HTTPException` — into
`HTTPException(500, "Error parsing CV with LLM: " + str(e))`. -/
def parse_cv_with_llm (apiKey : Option String)
    (llm : String → String → Except String String) (cv_text : String) :
    Except PyError Json :=
  if apiKeyIsSet apiKey then
    match llm systemMessage (buildPrompt cv_text) with
    | Except.error m =>
        Except.error (PyError.http ⟨500, "Error parsing CV with LLM: " ++ m⟩)
    | Except.ok content =>
        match recoverJson content with
        | Except.ok v => Except.ok v
        | Except.error e =>
            Except.error (PyError.http
              ⟨500, "Error parsing CV with LLM: " ++ errStr e⟩)
  else
    Except.ok demoCV

/-- An uploaded file as the endpoint sees it: declared content type and
raw bytes. -/
structure UploadFile where
  content_type : String
  content : List Nat

/-- Translation of the `POST /parse-cv` handler `parse_cv` (src/app.py
lines 212-242).  A content type other than "application/pdf" is rejected
with `HTTPException(400, "Only PDF files are supported")` before
anything is read.  The upload is read and passed to
`extract_text_from_pdf` — outside any `try`, so an extraction failure
propagates as it is.  The structuring call sits inside a `try` whose
`except` wraps any exception `e` into `HTTPException(500, "Failed to
process CV: " + str(e) + ". Please ensure the PDF is valid and not
corrupted.")`. -/
def parse_cv (apiKey : Option String)
    (readPdf : List Nat → Except String (List String))
    (llm : String → String → Except String String)
    (file : UploadFile) (fs : FileSystem) :
    Except PyError Json × FileSystem :=
  if file.content_type ≠ "application/pdf" then
    (Except.error (PyError.http ⟨400, "Only PDF files are supported"⟩), fs)
  else
    match extract_text_from_pdf readPdf file.content fs with
    | (Except.error e, fs1) => (Except.error e, fs1)
    | (Except.ok cv_text, fs1) =>
        match parse_cv_with_llm apiKey llm cv_text with
        | Except.ok v => (Except.ok v, fs1)
        | Except.error e =>
            (Except.error (PyError.http
              ⟨500, "Failed to process CV: " ++ errStr e ++
                ". Please ensure the PDF is valid and not corrupted."⟩), fs1)

/-- Translation of the `GET /health` handler (src/app.py lines 244-247):
it returns the literal body, and FastAPI serves it with the default
status 200. -/
def health_check : Nat × Json :=
  (200, Json.obj [("status", Json.str "healthy")])

/-- Helper for the Claim C2 statements: what the recovery chain does
with the decode result of a matched pattern — a decoded value is
returned as is, a decode failure is wrapped by the outer handler into
the 500 structuring response. -/
def wrapDecode : Except String Json → Except PyError Json
  | Except.ok v => Except.ok v
  | Except.error m =>
      Except.error (PyError.http ⟨500, "Error parsing CV with LLM: " ++ m⟩)

/-- A left fold of string append over all-empty pages returns the
accumulator unchanged. -/
theorem foldl_append_empty_pages (pages : List String) (acc : String)
    (hp : ∀ p ∈ pages, p = "") :
    pages.foldl (fun text page => text ++ page) acc = acc := by
  induction pages generalizing acc with
  | nil => rfl
  | cons p ps ih =>
      have hp0 : p = "" := hp p (by simp)
      have hrest : ∀ q ∈ ps, q = "" := fun q hq => hp q (by simp [hq])
      rw [List.foldl_cons, hp0]
      have hacc : acc ++ "" = acc := by simp
      rw [hacc]
      exact ih acc hrest

/-- Claim C1 (code_bug evidence): on an input whose PDF-reading step
raises, `extract_text_from_pdf` re-raises the extraction error, but the
uniquely-named temporary file it created (path 0 in a fresh filesystem)
still exists afterwards — `os.unlink` sits on the success path only, so
the claimed release-on-every-exit-path fails. -/
theorem tempfile_leak_on_unreadable_input :
    (extract_text_from_pdf (fun _ => Except.error "EOF marker not found")
        [110, 111, 116, 32, 97, 32, 112, 100, 102] ⟨0, []⟩).1
      = Except.error (PyError.http
          ⟨500, "Error extracting text from PDF: EOF marker not found"⟩)
    ∧ 0 ∈ (extract_text_from_pdf (fun _ => Except.error "EOF marker not found")
        [110, 111, 116, 32, 97, 32, 112, 100, 102] ⟨0, []⟩).2.files :=
  ⟨rfl, by decide⟩

/-- Claim C3 counterexample: a readable PDF with zero pages (the reading
step succeeds with an empty page list) makes the Text Extractor return
the empty string successfully — it does not fail with an
ExtractionError as the claim states. -/
theorem zero_page_returns_empty_cex :
    (extract_text_from_pdf (fun _ => Except.ok []) [37, 80, 68, 70] ⟨0, []⟩).1
      = Except.ok "" := rfl

/-- Claim C3 (amended): for every byte sequence that is a readable PDF
with zero pages, the Text Extractor returns the empty string, not an
error; an ExtractionError arises only when the reading step raises. -/
theorem zero_page_extract_ok
    (readPdf : List Nat → Except String (List String))
    (content : List Nat) (fs : FileSystem)
    (h : readPdf content = Except.ok []) :
    (extract_text_from_pdf readPdf content fs).1 = Except.ok "" := by
  simp [extract_text_from_pdf, h]

/-- Witness for the amended Claim C3 at a concrete zero-page reader. -/
theorem zero_page_extract_ok_witness :
    (extract_text_from_pdf (fun _ => Except.ok []) [1] ⟨3, [7]⟩).1
      = Except.ok "" :=
  zero_page_extract_ok (fun _ => Except.ok []) [1] ⟨3, [7]⟩ rfl

/-- Claim C7: for every readable PDF, the Text Extractor returns exactly
the concatenation of the per-page texts in page order with no separator
(`String.join`), and a PDF whose pages all extract to the empty string
yields the empty string without error. -/
theorem extract_concatenates_pages
    (readPdf : List Nat → Except String (List String))
    (content : List Nat) (fs : FileSystem) (pages : List String)
    (h : readPdf content = Except.ok pages) :
    (extract_text_from_pdf readPdf content fs).1
      = Except.ok (String.join pages)
    ∧ ((∀ p ∈ pages, p = "") →
        (extract_text_from_pdf readPdf content fs).1 = Except.ok "") := by
  have h1 : (extract_text_from_pdf readPdf content fs).1
      = Except.ok (pages.foldl (fun text page => text ++ page) "") := by
    simp [extract_text_from_pdf, h]
  constructor
  · rw [h1]; rfl
  · intro hp; rw [h1, foldl_append_empty_pages pages "" hp]

/-- Witness for Claim C7 at a concrete two-page reader, also evaluating
the join. -/
theorem extract_concatenates_pages_witness :
    (extract_text_from_pdf (fun _ => Except.ok ["Hello ", "World", ""])
        [5] ⟨0, []⟩).1
      = Except.ok (String.join ["Hello ", "World", ""])
    ∧ String.join ["Hello ", "World", ""] = "Hello World" :=
  ⟨(extract_concatenates_pages (fun _ => Except.ok ["Hello ", "World", ""])
      [5] ⟨0, []⟩ ["Hello ", "World", ""] rfl).1, rfl⟩

/-- Claim C5: with no credential configured, `parse_cv_with_llm` returns
the hardcoded demo structure, for every input text and every completion
service (so no network call can influence the result, and the output is
independent of the PDF content). -/
theorem demo_mode_fixed_output
    (llm llm2 : String → String → Except String String)
    (cv_text cv_text2 : String) :
    parse_cv_with_llm none llm cv_text = Except.ok demoCV
    ∧ parse_cv_with_llm none llm cv_text
        = parse_cv_with_llm none llm2 cv_text2 := by
  constructor <;> rfl

/-- Claim C8: `GET /health` returns status 200 with body
equal to the object mapping "status" to "healthy"; the handler depends
on no other state. -/
theorem health_always_healthy :
    health_check = (200, Json.obj [("status", Json.str "healthy")]) := rfl

/-- Claim C9: a completion whose content decodes as a JSON array — not a
mapping — is returned by the CV Structurer as the result without error
and without coercion. -/
theorem structurer_returns_nonmapping
    (llm : String → String → Except String String) (cv_text : String)
    (hc : llm systemMessage (buildPrompt cv_text) = Except.ok "[1, 2]") :
    parse_cv_with_llm (some "key") llm cv_text
      = Except.ok (Json.arr [Json.num 1, Json.num 2])
    ∧ Json.isObj (Json.arr [Json.num 1, Json.num 2]) = false := by
  have hkey : apiKeyIsSet (some "key") = true := by decide
  constructor
  · simp only [parse_cv_with_llm, hkey, if_true, hc]
    rfl
  · rfl

/-- Witness for Claim C9 at a concrete completion service returning the
JSON array text. -/
theorem structurer_returns_nonmapping_witness :
    parse_cv_with_llm (some "key") (fun _ _ => Except.ok "[1, 2]") "any text"
      = Except.ok (Json.arr [Json.num 1, Json.num 2])
    ∧ Json.isObj (Json.arr [Json.num 1, Json.num 2]) = false :=
  structurer_returns_nonmapping (fun _ _ => Except.ok "[1, 2]") "any text" rfl

/-- Claim C10: demo mode does not bypass extraction — with no credential
configured and an unreadable PDF, `POST /parse-cv` returns the
extraction failure, not the demo structure, and the extractor ran (it
consumed a temporary file name). -/
theorem demo_mode_still_extracts
    (readPdf : List Nat → Except String (List String))
    (llm : String → String → Except String String)
    (body : List Nat) (fs : FileSystem) (msg : String)
    (h : readPdf body = Except.error msg) :
    (parse_cv none readPdf llm ⟨"application/pdf", body⟩ fs).1
      = Except.error (PyError.http
          ⟨500, "Error extracting text from PDF: " ++ msg⟩)
    ∧ (parse_cv none readPdf llm ⟨"application/pdf", body⟩ fs).1
        ≠ Except.ok demoCV
    ∧ (parse_cv none readPdf llm ⟨"application/pdf", body⟩ fs).2.nextTmp
        = fs.nextTmp + 1 := by
  have h1 : parse_cv none readPdf llm ⟨"application/pdf", body⟩ fs
      = (Except.error (PyError.http
            ⟨500, "Error extracting text from PDF: " ++ msg⟩),
          ⟨fs.nextTmp + 1, fs.nextTmp :: fs.files⟩) := by
    simp [parse_cv, extract_text_from_pdf, h]
  refine ⟨by rw [h1], by rw [h1]; simp, by rw [h1]⟩

/-- Witness for Claim C10 at a concrete unreadable input. -/
theorem demo_mode_still_extracts_witness :
    (parse_cv none (fun _ => Except.error "EOF marker not found")
        (fun _ _ => Except.ok "\x7b\x7d") ⟨"application/pdf", [37]⟩ ⟨0, []⟩).1
      = Except.error (PyError.http
          ⟨500, "Error extracting text from PDF: EOF marker not found"⟩) :=
  (demo_mode_still_extracts (fun _ => Except.error "EOF marker not found")
    (fun _ _ => Except.ok "\x7b\x7d") [37] ⟨0, []⟩ "EOF marker not found" rfl).1

/-- Claim C6 counterexample: the rejection of a non-PDF content type
carries the detail "Only PDF files are supported" — without the trailing
period — so the claimed exact message "Only PDF files are supported."
does not match the response. -/
theorem reject_message_no_period_cex :
    (parse_cv none (fun _ => Except.ok []) (fun _ _ => Except.ok "")
        ⟨"text/plain", []⟩ ⟨0, []⟩).1
      = Except.error (PyError.http ⟨400, "Only PDF files are supported"⟩)
    ∧ "Only PDF files are supported" ≠ "Only PDF files are supported." :=
  ⟨rfl, by decide⟩

/-- Claim C6 (amended): a request whose content type is not exactly
"application/pdf" is answered with status 400 and detail "Only PDF files
are supported" (no trailing period), with the filesystem untouched and
the oracles never consulted (the response does not depend on them); a
request with content type "application/pdf" never receives that
rejection — every error it can receive carries status 500. -/
theorem content_type_gate (apiKey : Option String)
    (readPdf : List Nat → Except String (List String))
    (llm : String → String → Except String String)
    (file : UploadFile) (fs : FileSystem) :
    (file.content_type ≠ "application/pdf" →
      parse_cv apiKey readPdf llm file fs
        = (Except.error (PyError.http ⟨400, "Only PDF files are supported"⟩),
            fs))
    ∧ (file.content_type = "application/pdf" →
        ∀ e, (parse_cv apiKey readPdf llm file fs).1 = Except.error e →
          e.statusOf = 500) := by
  constructor
  · intro hne
    simp [parse_cv, hne]
  · intro heq e he
    simp only [parse_cv, heq] at he
    rw [if_neg (by simp)] at he
    cases hr : readPdf file.content with
    | error msg =>
        simp [extract_text_from_pdf, hr] at he
        rw [← he]
        rfl
    | ok pages =>
        simp only [extract_text_from_pdf, hr] at he
        cases hp : parse_cv_with_llm apiKey llm
            (pages.foldl (fun text page => text ++ page) "") with
        | ok v => rw [hp] at he; simp at he
        | error e2 =>
            rw [hp] at he
            simp at he
            rw [← he]
            rfl

/-- Witness for the amended Claim C6 at a concrete non-PDF upload. -/
theorem content_type_gate_witness :
    parse_cv none (fun _ => Except.ok []) (fun _ _ => Except.ok "x")
        ⟨"text/plain", [1, 2]⟩ ⟨4, [2]⟩
      = (Except.error (PyError.http ⟨400, "Only PDF files are supported"⟩),
          ⟨4, [2]⟩) :=
  (content_type_gate none (fun _ => Except.ok []) (fun _ _ => Except.ok "x")
    ⟨"text/plain", [1, 2]⟩ ⟨4, [2]⟩).1 (by decide)

/-- Claim C4 counterexample: an extraction failure reaches the client
with detail "Error extracting text from PDF: ..." — the call to the
extractor sits outside the handler's try, so the claimed "Failed to
process CV: ..." wrapper is absent for the extraction step. -/
theorem extraction_error_unwrapped_cex :
    (parse_cv (some "key") (fun _ => Except.error "EOF marker not found")
        (fun _ _ => Except.ok "\x7b\x7d")
        ⟨"application/pdf", [37, 80, 68, 70]⟩ ⟨0, []⟩).1
      = Except.error (PyError.http
          ⟨500, "Error extracting text from PDF: EOF marker not found"⟩)
    ∧ List.isPrefixOf ("Failed to process CV: ".data)
        ("Error extracting text from PDF: EOF marker not found".data) = false :=
  ⟨rfl, by decide⟩

/-- Claim C4 (amended): for a PDF-typed request, a structuring failure
is answered with status 500 and a message of the form "Failed to process
CV: {str(e)}. Please ensure the PDF is valid and not corrupted."
embedding the original failure, while an extraction failure propagates
unwrapped with detail "Error extracting text from PDF: {original
message}". -/
theorem failure_message_shapes (apiKey : Option String)
    (readPdf : List Nat → Except String (List String))
    (llm : String → String → Except String String)
    (file : UploadFile) (fs : FileSystem)
    (hct : file.content_type = "application/pdf") :
    (∀ msg, readPdf file.content = Except.error msg →
      (parse_cv apiKey readPdf llm file fs).1
        = Except.error (PyError.http
            ⟨500, "Error extracting text from PDF: " ++ msg⟩))
    ∧ (∀ pages e, readPdf file.content = Except.ok pages →
        parse_cv_with_llm apiKey llm (String.join pages) = Except.error e →
        (parse_cv apiKey readPdf llm file fs).1
          = Except.error (PyError.http
              ⟨500, "Failed to process CV: " ++ errStr e ++
                ". Please ensure the PDF is valid and not corrupted."⟩)) := by
  constructor
  · intro msg hr
    simp [parse_cv, hct, extract_text_from_pdf, hr]
  · intro pages e hr hllm
    simp only [String.join] at hllm
    simp [parse_cv, hct, extract_text_from_pdf, hr, hllm]

/-- Witness for the amended Claim C4: the extraction branch at a
concrete unreadable input, and the structuring branch at a concrete
completion with no recoverable JSON. -/
theorem failure_message_shapes_witness :
    (parse_cv (some "key") (fun _ => Except.error "boom")
        (fun _ _ => Except.ok "x") ⟨"application/pdf", [9]⟩ ⟨0, []⟩).1
      = Except.error (PyError.http
          ⟨500, "Error extracting text from PDF: boom"⟩) :=
  (failure_message_shapes (some "key") (fun _ => Except.error "boom")
    (fun _ _ => Except.ok "x") ⟨"application/pdf", [9]⟩ ⟨0, []⟩ rfl).1
    "boom" rfl

/-- Claim C2 counterexample: on the completion
"(json fence)x(close fence)(an object from brace to brace)", the claimed
priority order would fall through from the undecodable json fence to the
greedy brace strategy and return the object — the brace span is present
and decodes — but the code raises a 500 carrying the decode failure of
the fenced content instead of trying the later strategies. -/
theorem recovery_stops_at_first_match_cex :
    parse_cv_with_llm (some "key")
        (fun _ _ => Except.ok "```json\nx\n```\x7b\"a\": 1\x7d") "cv text"
      = Except.error (PyError.http
          ⟨500, "Error parsing CV with LLM: Expecting value"⟩)
    ∧ braceSpan ("```json\nx\n```\x7b\"a\": 1\x7d").data
        = some (("\x7b\"a\": 1\x7d").data)
    ∧ jsonLoads "\x7b\"a\": 1\x7d" = Except.ok (Json.obj [("a", Json.num 1)]) :=
  ⟨rfl, rfl, rfl⟩

/-- Claim C2 (amended): given a string completion, the CV Structurer
tries the whole string with `json.loads`, then the json-labeled fenced
block, then the unlabeled fenced block, then the first-brace-to-last-
brace span, stopping at the first pattern that matches; the matched
content's decode result is returned unchanged on success and raised as a
500 structuring error on failure, without trying later strategies; when
no pattern matches, a 500 "Failed to parse LLM response as JSON" error
is raised (and re-wrapped by the function's own handler). -/
theorem recovery_chain_characterization (apiKey : Option String)
    (llm : String → String → Except String String)
    (cv_text content : String)
    (hk : apiKeyIsSet apiKey = true)
    (hc : llm systemMessage (buildPrompt cv_text) = Except.ok content) :
    (∀ v, jsonLoads content = Except.ok v →
      parse_cv_with_llm apiKey llm cv_text = Except.ok v)
    ∧ (∀ m, jsonLoads content = Except.error m →
        (∀ inner, findFence fenceJsonOpen content = some inner →
          parse_cv_with_llm apiKey llm cv_text = wrapDecode (jsonLoads inner))
        ∧ (findFence fenceJsonOpen content = none →
            (∀ inner, findFence fenceOpen content = some inner →
              parse_cv_with_llm apiKey llm cv_text
                = wrapDecode (jsonLoads inner))
            ∧ (findFence fenceOpen content = none →
                (∀ sub, braceSpan content.data = some sub →
                  parse_cv_with_llm apiKey llm cv_text
                    = wrapDecode (jsonLoads (String.mk sub)))
                ∧ (braceSpan content.data = none →
                    parse_cv_with_llm apiKey llm cv_text
                      = Except.error (PyError.http
                          ⟨500, "Error parsing CV with LLM: 500: Failed to parse LLM response as JSON"⟩))))) := by
  have hmain : parse_cv_with_llm apiKey llm cv_text
      = match recoverJson content with
        | Except.ok v => Except.ok v
        | Except.error e =>
            Except.error (PyError.http
              ⟨500, "Error parsing CV with LLM: " ++ errStr e⟩) := by
    simp [parse_cv_with_llm, hk, hc]
  constructor
  · intro v hv
    rw [hmain]
    simp [recoverJson, hv]
  · intro m hm
    constructor
    · intro inner hinner
      rw [hmain]
      simp only [recoverJson, hm, hinner]
      cases hj : jsonLoads inner <;> simp [wrapDecode, errStr]
    · intro hnone1
      constructor
      · intro inner hinner
        rw [hmain]
        simp only [recoverJson, hm, hnone1, hinner]
        cases hj : jsonLoads inner <;> simp [wrapDecode, errStr]
      · intro hnone2
        constructor
        · intro sub hsub
          rw [hmain]
          simp only [recoverJson, hm, hnone1, hnone2, hsub]
          cases hj : jsonLoads (String.mk sub) <;> simp [wrapDecode, errStr]
        · intro hnone3
          rw [hmain]
          simp only [recoverJson, hm, hnone1, hnone2, hnone3]
          rfl

/-- Witness for the amended Claim C2: a directly decodable completion is
returned unchanged through the first link of the chain. -/
theorem recovery_chain_characterization_witness :
    parse_cv_with_llm (some "k")
        (fun _ _ => Except.ok "\x7b\"a\": 1\x7d") "resume text"
      = Except.ok (Json.obj [("a", Json.num 1)]) :=
  (recovery_chain_characterization (some "k")
      (fun _ _ => Except.ok "\x7b\"a\": 1\x7d") "resume text" "\x7b\"a\": 1\x7d"
      (by decide) rfl).1
    (Json.obj [("a", Json.num 1)]) rfl

end CvParserApi
